import Mathlib

/-!
Verification development for the Clarity test-orchestration pipeline
(scripts/run_tests_with_coverage.py and test/wokwi/integration_test.py).

The Python code is shallowly embedded: strings are lists of characters,
Python dicts with string keys are association lists with insertion-order
semantics, and Python exceptions are modelled with Option/Except.
Python float values are modelled exactly: every float the scripts build
comes from a decimal literal or from parsing a decimal token, so each is
an exact decimal number, represented here as an integer mantissa with a
power-of-ten exponent in normal form (PyFloat); toRat interprets such a
value as a rational, and order comparisons on PyFloat are proved to
agree with the rational order.
-/

namespace Clarity

/-- Python whitespace characters as used by str.split() with no argument. -/
def pyIsSpace (c : Char) : Bool :=
  c == ' ' || c == '\t' || c == '\n' || c == '\r' || c == '\x0b' || c == '\x0c'

/-- Is the first list a prefix of the second (character lists). -/
def isPrefixList : List Char → List Char → Bool
  | [], _ => true
  | _ :: _, [] => false
  | a :: as, b :: bs => a == b && isPrefixList as bs

/-- Python substring containment: the expression written as a quoted
    literal followed by the keyword in followed by a string. -/
def containsSub (sub : List Char) : List Char → Bool
  | [] => sub.isEmpty
  | c :: rest => isPrefixList sub (c :: rest) || containsSub sub rest

/-- Substring containment on Lean strings (Python in operator). -/
def containsStr (pat s : String) : Bool :=
  containsSub pat.data s.data

/-- Worker for Python str.split() with no argument: split on runs of
    whitespace, discarding empty pieces.  The accumulator holds the
    current token reversed. -/
def splitWSGo (cur : List Char) : List Char → List (List Char)
  | [] => if cur.isEmpty then [] else [cur.reverse]
  | c :: rest =>
    if pyIsSpace c then
      if cur.isEmpty then splitWSGo [] rest
      else cur.reverse :: splitWSGo [] rest
    else
      splitWSGo (c :: cur) rest

/-- Python line.split() with no argument. -/
def pySplit (s : List Char) : List (List Char) :=
  splitWSGo [] s

/-- The source file run_tests_with_coverage.py writes the separator of
    result.stdout.split as a doubly escaped backslash-n, which in Python
    denotes the two-character string backslash followed by n, not the
    newline character.  This function splits a character list on that
    literal two-character sequence exactly as Python str.split with that
    separator does: leftmost, non-overlapping, keeping empty pieces. -/
def splitBackslashN : List Char → List (List Char)
  | [] => [[]]
  | '\\' :: 'n' :: rest => [] :: splitBackslashN rest
  | c :: rest =>
    match splitBackslashN rest with
    | [] => [[c]]
    | chunk :: chunks => (c :: chunk) :: chunks

/-- Python token.rstrip with the percent character: drop every trailing
    percent sign. -/
def rstripPercent (s : List Char) : List Char :=
  (s.reverse.dropWhile (fun c => c == '%')).reverse

/-- Strip Python whitespace from both ends. -/
def stripChars (s : List Char) : List Char :=
  ((s.dropWhile pyIsSpace).reverse.dropWhile pyIsSpace).reverse

/-- Numeric value of a list of decimal digits. -/
def natOfDigits (ds : List Char) : Nat :=
  ds.foldl (fun n c => 10 * n + (c.toNat - 48)) 0

/-- An exact Python float of the shapes this program produces: the value
    num divided by ten to the exp.  Values built through normDec keep the
    invariant that the mantissa of a value with positive exponent is not
    divisible by ten, so equal decimal values have equal representations,
    matching Python float equality on such values. -/
structure PyFloat where
  num : Int
  exp : Nat
deriving DecidableEq, Repr

/-- Normalise a mantissa-exponent pair by cancelling factors of ten. -/
def normDec (n : Int) : Nat → PyFloat
  | 0 => ⟨n, 0⟩
  | e + 1 => if n % 10 == 0 then normDec (n / 10) e else ⟨n, e + 1⟩

/-- The float 0.0, the default used by coverage_data.get. -/
def zeroF : PyFloat := ⟨0, 0⟩

/-- The rational value of an embedded float. -/
def toRat (f : PyFloat) : ℚ :=
  (f.num : ℚ) / (10 : ℚ) ^ f.exp

/-- The Python comparison actual < threshold on embedded floats, by
    cross-multiplication with the power-of-ten denominators. -/
def decLt (a b : PyFloat) : Bool :=
  decide (a.num * ((10 ^ b.exp : Nat) : Int) < b.num * ((10 ^ a.exp : Nat) : Int))

/-- The Python comparison actual >= threshold on embedded floats. -/
def decGe (a b : PyFloat) : Bool :=
  decide (b.num * ((10 ^ a.exp : Nat) : Int) ≤ a.num * ((10 ^ b.exp : Nat) : Int))

/-- Core of the Python float constructor restricted to plain decimal
    literals (an optional integer part, an optional dot, an optional
    fractional part, at least one digit): exactly the token shapes the
    coverage summary can carry.  Any other text makes Python float raise
    ValueError, modelled as none. -/
def pyFloatCore (u : List Char) : Option PyFloat :=
  let intPart := u.takeWhile Char.isDigit
  let rest := u.dropWhile Char.isDigit
  match rest with
  | [] => if intPart.isEmpty then none else some ⟨(natOfDigits intPart : Int), 0⟩
  | '.' :: fr =>
    let fracPart := fr.takeWhile Char.isDigit
    let rest2 := fr.dropWhile Char.isDigit
    if !rest2.isEmpty then none
    else if intPart.isEmpty && fracPart.isEmpty then none
    else some (normDec
      ((natOfDigits intPart * 10 ^ fracPart.length + natOfDigits fracPart : Nat) : Int)
      fracPart.length)
  | _ => none

/-- Python float applied to a token: strips surrounding whitespace and
    an optional sign, then reads a decimal literal; none models a raised
    ValueError. -/
def pyFloat? (s : List Char) : Option PyFloat :=
  match stripChars s with
  | '-' :: u => (pyFloatCore u).map (fun f => ⟨-f.num, f.exp⟩)
  | '+' :: u => pyFloatCore u
  | u => pyFloatCore u

/-- A Python dict from metric names to percentages (spec name: MetricSet),
    as an insertion-ordered association list with unique keys. -/
abbrev MetricSet := List (String × PyFloat)

/-- Python dict lookup with a default, d.get k dflt. -/
def dget (d : MetricSet) (k : String) (dflt : PyFloat) : PyFloat :=
  match d with
  | [] => dflt
  | (k1, v) :: rest => if k1 = k then v else dget rest k dflt

/-- Python key-membership test, k in d. -/
def dmem (d : MetricSet) (k : String) : Bool :=
  d.any (fun p => p.1 == k)

/-- Python dict assignment d[k] = v: overwrite in place when the key is
    present, append otherwise (insertion order preserved). -/
def dinsert (d : MetricSet) (k : String) (v : PyFloat) : MetricSet :=
  if dmem d k then d.map (fun p => if p.1 = k then (k, v) else p)
  else d ++ [(k, v)]

/-- The label literal tested by parse_coverage_results at line 156. -/
def lines_label : List Char := "lines......:".data

/-- The label literal tested at line 159. -/
def functions_label : List Char := "functions..:".data

/-- The label literal tested at line 162. -/
def branches_label : List Char := "branches...:".data

/-- The expression float of parts index 1 rstripped of percent signs,
    from lines 158, 161 and 164: none models the IndexError raised when
    the chunk has fewer than two whitespace-separated tokens as well as
    the ValueError raised by float on a malformed token. -/
def extract_percent (line : List Char) : Option PyFloat :=
  match (pySplit line).get? 1 with
  | none => none
  | some tok => pyFloat? (rstripPercent tok)

/-- One iteration of the parsing loop of parse_coverage_results
    (lines 155-164) on one chunk of the split standard output: the
    if/elif chain over the three labels; none models an exception
    escaping the loop body. -/
def parse_line_step (d : MetricSet) (line : List Char) : Option MetricSet :=
  if containsSub lines_label line then
    (extract_percent line).map (fun v => dinsert d "line_coverage" v)
  else if containsSub functions_label line then
    (extract_percent line).map (fun v => dinsert d "function_coverage" v)
  else if containsSub branches_label line then
    (extract_percent line).map (fun v => dinsert d "branch_coverage" v)
  else some d

/-- parse_coverage_results (lines 150-170) as a function of the text the
    lcov subprocess writes to standard output.  The whole loop sits in a
    try block whose handler returns None, so the first exception aborts
    the parse: the fold over Option propagates the first none.  The
    split uses the literal backslash-n separator exactly as the source
    does. -/
def parse_coverage_results (stdout : String) : Option MetricSet :=
  (splitBackslashN stdout.data).foldlM parse_line_step []

/-- The hard-coded threshold table of validate_coverage_thresholds,
    lines 177-181 (spec name: ThresholdTable). -/
def coverage_thresholds : List (String × PyFloat) :=
  [("line_coverage", ⟨85, 0⟩), ("function_coverage", ⟨95, 0⟩),
   ("branch_coverage", ⟨80, 0⟩)]

/-- validate_coverage_thresholds (lines 172-195) with the threshold
    table abstracted as a parameter: the early falsy-argument return of
    lines 174-175 fires before the table is consulted, then the loop
    over the table accumulates the passed flag exactly as lines 183-193
    do.  The none argument models a Python None, some of an empty list
    models an empty dict; both are falsy. -/
def validate_with_thresholds (thresholds : List (String × PyFloat))
    (coverage_data : Option MetricSet) : Bool :=
  match coverage_data with
  | none => false
  | some d =>
    if d.isEmpty then false
    else thresholds.foldl
      (fun passed mt => if decLt (dget d mt.1 zeroF) mt.2 then false else passed) true

/-- validate_coverage_thresholds as in the source, with its literal
    threshold table. -/
def validate_coverage_thresholds (coverage_data : Option MetricSet) : Bool :=
  validate_with_thresholds coverage_thresholds coverage_data

/-- validate_coverage_thresholds written against an explicit mutable
    store holding the metrics dict the caller passed in: the Python call
    receives the dict by reference, so the state after the call is the
    dict as the body left it.  The body of lines 172-195 only ever reads
    the dict (truthiness test, dict.get, printing), which this embedding
    makes explicit: the single get is the only state access. -/
def validate_coverage_thresholds_st : StateM MetricSet Bool := do
  let coverage_data ← get
  if coverage_data.isEmpty then
    pure false
  else
    pure (coverage_thresholds.foldl
      (fun passed mt => if decLt (dget coverage_data mt.1 zeroF) mt.2 then false else passed)
      true)

/-- The phase dict of run_wokwi_test, integration_test.py lines 71-77,
    as one boolean per phase, all starting false. -/
structure Phases where
  startup : Bool
  sensor_interaction : Bool
  theme_trigger : Bool
  error_system : Bool
  configuration : Bool
deriving DecidableEq, Repr

/-- The initial phase dict: every phase incomplete. -/
def initial_test_phases : Phases :=
  ⟨false, false, false, false, false⟩

/-- Trigger substrings of the startup phase (lines 119-122). -/
def startup_patterns : List String :=
  ["SplashPanel loaded successfully", "OemOilPanel loaded successfully"]

/-- Trigger substrings of the sensor_interaction phase (lines 123-127). -/
def sensor_interaction_patterns : List String :=
  ["Pressure reading changed", "Temperature reading changed", "Gauge animation"]

/-- Trigger substrings of the theme_trigger phase (lines 128-133). -/
def theme_trigger_patterns : List String :=
  ["Theme changed to Night", "KeyPresentActivate", "LockEngagedActivate",
   "Theme changed to Day"]

/-- Trigger substrings of the error_system phase (lines 134-138). -/
def error_system_patterns : List String :=
  ["ErrorOccurredActivate", "Error navigation", "Error resolution"]

/-- Trigger substrings of the configuration phase (lines 139-143). -/
def configuration_patterns : List String :=
  ["Config panel", "Theme configuration", "Config exit"]

/-- Every trigger substring of every phase. -/
def all_patterns : List String :=
  startup_patterns ++ sensor_interaction_patterns ++ theme_trigger_patterns
    ++ error_system_patterns ++ configuration_patterns

/-- Does any trigger of the list occur in the line (the inner loop of
    update_test_phases, lines 148-151, which stops at the first hit). -/
def phaseHit (patterns : List String) (line : String) : Bool :=
  patterns.any (fun pat => containsStr pat line)

/-- update_test_phases (integration_test.py lines 116-151): for every
    phase still incomplete, mark it complete when any of its triggers is
    contained in the line; a completed phase is left untouched. -/
def update_test_phases (line : String) (phases : Phases) : Phases :=
  { startup :=
      if phases.startup then true else phaseHit startup_patterns line
    sensor_interaction :=
      if phases.sensor_interaction then true
      else phaseHit sensor_interaction_patterns line
    theme_trigger :=
      if phases.theme_trigger then true else phaseHit theme_trigger_patterns line
    error_system :=
      if phases.error_system then true else phaseHit error_system_patterns line
    configuration :=
      if phases.configuration then true else phaseHit configuration_patterns line }

/-- The serial-monitor loop of run_wokwi_test (lines 89-93): feed the
    stream of lines, one update per line. -/
def run_phase_lines (phases : Phases) (lines : List String) : Phases :=
  lines.foldl (fun p l => update_test_phases l p) phases

/-- The completed-phase set of one phase dict is included in that of
    another: pointwise boolean implication over the five phases.  This is
    the subset order on sets of completed phases. -/
def phaseLeB (p q : Phases) : Bool :=
  (!p.startup || q.startup)
    && (!p.sensor_interaction || q.sensor_interaction)
    && (!p.theme_trigger || q.theme_trigger)
    && (!p.error_system || q.error_system)
    && (!p.configuration || q.configuration)

/-- The Python exceptions relevant to the runner: FileNotFoundError is
    what subprocess.run raises when the executable cannot be located;
    CalledProcessError is the only class the stage runners catch; every
    other exception is grouped as otherError. -/
inductive PyExc where
  | fileNotFoundError
  | calledProcessError
  | otherError
deriving DecidableEq, Repr

/-- The outside world of one full run of CoverageTestRunner, fixing what
    each external action would do: for each test stage the outcome of
    its subprocess.run call (an exit code, or a raised exception such as
    FileNotFoundError when pio.exe is absent); the instrumentation files
    found by rglob; whether any exception is raised while producing the
    coverage report or the JSON test report; whether the lcov tracefile
    exists; and the outcome of the lcov summary subprocess. -/
structure Env where
  unit_run : Except PyExc Int
  integration_run : Except PyExc Int
  performance_run : Except PyExc Int
  memory_run : Except PyExc Int
  covgen_exc : Bool
  gcno_files : List String
  coverage_file_exists : Bool
  lcov_run : Except PyExc String
  report_exc : Option PyExc

/-- The shared shape of run_unit_tests, run_integration_tests,
    run_performance_tests and run_memory_tests (lines 40-67, 69-95,
    197-223, 225-251): inside a try block, run the subprocess and return
    whether its exit code is zero; the except clause catches only
    subprocess.CalledProcessError and returns False; any other raised
    exception (in particular FileNotFoundError from a missing pio.exe)
    propagates to the caller. -/
def run_stage (r : Except PyExc Int) : Except PyExc Bool :=
  match r with
  | Except.ok code => Except.ok (decide (code = 0))
  | Except.error e =>
    if e = PyExc.calledProcessError then Except.ok false else Except.error e

/-- run_unit_tests, lines 40-67. -/
def run_unit_tests (env : Env) : Except PyExc Bool :=
  run_stage env.unit_run

/-- run_integration_tests, lines 69-95. -/
def run_integration_tests (env : Env) : Except PyExc Bool :=
  run_stage env.integration_run

/-- run_performance_tests, lines 197-223. -/
def run_performance_tests (env : Env) : Except PyExc Bool :=
  run_stage env.performance_run

/-- run_memory_tests, lines 225-251. -/
def run_memory_tests (env : Env) : Except PyExc Bool :=
  run_stage env.memory_run

/-- generate_coverage_report, lines 97-137: inside a try block whose
    handler absorbs every exception into False, return False when no
    instrumentation files are found and True otherwise. -/
def generate_coverage_report (env : Env) : Bool :=
  if env.covgen_exc then false
  else if env.gcno_files.isEmpty then false
  else true

/-- parse_coverage_results including its surroundings, lines 139-170:
    None when the filtered tracefile is absent; any exception of the try
    block (including a failure to launch lcov) becomes None; otherwise
    the summary text is parsed. -/
def parse_coverage_results_run (env : Env) : Option MetricSet :=
  if env.coverage_file_exists then
    match env.lcov_run with
    | Except.error _ => none
    | Except.ok out => parse_coverage_results out
  else none

/-- The value performance_result holds after lines 291-297: vacuously
    True when the stage is skipped, otherwise the stage outcome. -/
def performance_result (env : Env) (skip_performance : Bool) : Except PyExc Bool :=
  if !skip_performance then run_performance_tests env else Except.ok true

/-- The value memory_result holds after lines 292-302. -/
def memory_result (env : Env) (skip_memory : Bool) : Except PyExc Bool :=
  if !skip_memory then run_memory_tests env else Except.ok true

/-- generate_test_report, lines 253-275: writes the JSON report; its
    return value is unused by the caller, so only a raised exception
    (for example an OSError from open) is observable. -/
def generate_test_report (env : Env) : Except PyExc Unit :=
  match env.report_exc with
  | some e => Except.error e
  | none => Except.ok ()

/-- run_all_tests, lines 277-335: stages in order, the coverage
    pipeline, report generation, then the exit value 0 or 1 from the
    conjunction of lines 326-331.  The local names of the source are
    inlined: coverage_data is the if expression of line 306 and
    coverage_passed its validation of line 309.  An exception raised by
    any step propagates out exactly as in Python. -/
def run_all_tests (env : Env) (skip_performance skip_memory : Bool) :
    Except PyExc Int :=
  match run_unit_tests env with
  | Except.error e => Except.error e
  | Except.ok unit_result =>
    match run_integration_tests env with
    | Except.error e => Except.error e
    | Except.ok integration_result =>
      match performance_result env skip_performance with
      | Except.error e => Except.error e
      | Except.ok perf_result =>
        match memory_result env skip_memory with
        | Except.error e => Except.error e
        | Except.ok mem_result =>
          match generate_test_report env with
          | Except.error e => Except.error e
          | Except.ok _ =>
            if unit_result && integration_result && perf_result && mem_result
                && generate_coverage_report env
                && validate_coverage_thresholds
                    (if generate_coverage_report env then parse_coverage_results_run env
                     else none)
              then Except.ok 0 else Except.ok 1

/-- An environment in which every external step succeeds and the three
    coverage metrics beat their thresholds.  The lcov summary uses the
    literal backslash-n separator, the one the source splits on. -/
def envAllPass : Env :=
  { unit_run := Except.ok 0
    integration_run := Except.ok 0
    performance_run := Except.ok 0
    memory_run := Except.ok 0
    covgen_exc := false
    gcno_files := ["device_main.gcno"]
    coverage_file_exists := true
    lcov_run := Except.ok "lines......: 92.3%\\nfunctions..: 97.0%\\nbranches...: 85.0%"
    report_exc := none }

/-- envAllPass with the unit-test tool impossible to launch: the
    subprocess.run call of line 52 raises FileNotFoundError. -/
def envMissingTool : Env :=
  { envAllPass with unit_run := Except.error PyExc.fileNotFoundError }

/-- The boolean comparison decGe agrees with the rational order on the
    values of the embedded floats. -/
theorem decGe_eq_toRat (a b : PyFloat) : decGe a b = decide (toRat b ≤ toRat a) := by
  unfold decGe toRat
  refine decide_eq_decide.mpr ?_
  rw [div_le_div_iff₀ (by positivity) (by positivity)]
  constructor
  · intro hh
    exact_mod_cast hh
  · intro hh
    exact_mod_cast hh

/-- The strict and non-strict comparisons on embedded floats are
    complementary. -/
theorem decGe_eq_not_decLt (a b : PyFloat) : decGe a b = !decLt a b := by
  unfold decGe decLt
  simp [← decide_not, not_lt]

/-- On a non-falsy dict, the threshold loop of
    validate_coverage_thresholds computes the conjunction over the
    threshold table of the per-metric comparisons actual >= threshold,
    with absent metrics read as 0.0. -/
theorem validate_some_eq_all (d : MetricSet) :
    validate_coverage_thresholds (some d)
      = coverage_thresholds.all (fun mt => decGe (dget d mt.1 zeroF) mt.2) := by
  cases d with
  | nil => decide
  | cons hd tl =>
    show List.foldl
        (fun passed mt => if decLt (dget (hd :: tl) mt.1 zeroF) mt.2 then false else passed)
        true coverage_thresholds = _
    simp only [coverage_thresholds, List.foldl_cons, List.foldl_nil, List.all_cons,
      List.all_nil]
    rw [decGe_eq_not_decLt, decGe_eq_not_decLt, decGe_eq_not_decLt]
    generalize decLt (dget (hd :: tl) "line_coverage" zeroF) ⟨85, 0⟩ = b1
    generalize decLt (dget (hd :: tl) "function_coverage" zeroF) ⟨95, 0⟩ = b2
    generalize decLt (dget (hd :: tl) "branch_coverage" zeroF) ⟨80, 0⟩ = b3
    cases b1 <;> cases b2 <;> cases b3 <;> rfl

/-- Inserting a fresh key appends it. -/
theorem dinsert_not_mem (d : MetricSet) (m : String) (v : PyFloat)
    (h : dmem d m = false) : dinsert d m v = d ++ [(m, v)] := by
  simp [dinsert, h]

/-- Appending a binding of a fresh key to 0.0 changes no lookup that
    defaults to 0.0. -/
theorem dget_append_not_mem (d : MetricSet) (m : String) (h : dmem d m = false)
    (k : String) : dget (d ++ [(m, zeroF)]) k zeroF = dget d k zeroF := by
  induction d with
  | nil =>
    simp only [List.nil_append, dget]
    split <;> rfl
  | cons p rest ih =>
    rcases p with ⟨k1, v1⟩
    have h2 : dmem rest m = false := by
      simp only [dmem, List.any_cons] at h
      exact (Bool.or_eq_false_iff.mp h).2
    simp only [List.cons_append, dget]
    split
    · rfl
    · exact ih h2

/-- C1: for every metric name in the threshold table,
    validate_coverage_thresholds reads the actual value from the metric
    dict defaulting to 0.0, that metric passes exactly when
    actual >= threshold in the rational order, the overall result is the
    conjunction of the per-metric results, and a metric bound to 0.0
    behaves exactly as an unmeasured one. -/
theorem validate_conjunction_semantics :
    (∀ d : MetricSet, validate_coverage_thresholds (some d)
        = coverage_thresholds.all (fun mt => decGe (dget d mt.1 zeroF) mt.2))
    ∧ (∀ a b : PyFloat, decGe a b = decide (toRat b ≤ toRat a))
    ∧ (∀ (d : MetricSet) (m : String), dmem d m = false →
        validate_coverage_thresholds (some (dinsert d m zeroF))
          = validate_coverage_thresholds (some d)) := by
  refine ⟨validate_some_eq_all, decGe_eq_toRat, ?_⟩
  intro d m h
  rw [dinsert_not_mem d m zeroF h, validate_some_eq_all, validate_some_eq_all]
  simp only [coverage_thresholds, List.all_cons, List.all_nil]
  rw [dget_append_not_mem d m h "line_coverage",
    dget_append_not_mem d m h "function_coverage",
    dget_append_not_mem d m h "branch_coverage"]

/-- C1 witness: a dict measuring only line coverage at 90 validates the
    same with or without an explicit branch-coverage entry of 0.0. -/
theorem validate_conjunction_semantics_witness :
    dmem [("line_coverage", ⟨90, 0⟩)] "branch_coverage" = false
    ∧ validate_coverage_thresholds
        (some (dinsert [("line_coverage", ⟨90, 0⟩)] "branch_coverage" zeroF))
      = validate_coverage_thresholds (some [("line_coverage", ⟨90, 0⟩)]) :=
  ⟨by decide,
    validate_conjunction_semantics.2.2 [("line_coverage", ⟨90, 0⟩)] "branch_coverage"
      (by decide)⟩

/-- C10: with a None argument or an empty metric dict, the validator
    returns False through its early falsy test, for every threshold
    table, including the empty table over which the conjunction of zero
    per-metric results would be vacuously true. -/
theorem validate_falsy_early_return :
    (∀ thresholds : List (String × PyFloat),
        validate_with_thresholds thresholds none = false
        ∧ validate_with_thresholds thresholds (some []) = false)
    ∧ validate_coverage_thresholds none = false
    ∧ validate_coverage_thresholds (some []) = false
    ∧ validate_with_thresholds [] (some []) = false
    ∧ ([] : List (String × PyFloat)).all
        (fun mt => decGe (dget [] mt.1 zeroF) mt.2) = true :=
  ⟨fun _ => ⟨rfl, rfl⟩, rfl, rfl, rfl, rfl⟩

/-- C8: the validator is deterministic and side-effect-free: on equal
    metric dicts the two calls return the same pair, the dict held in
    the store after a call is the dict passed in, and the returned value
    is that of the pure validator. -/
theorem validate_deterministic_pure (d₁ d₂ : MetricSet) (h : d₁ = d₂) :
    validate_coverage_thresholds_st.run d₁ = validate_coverage_thresholds_st.run d₂
    ∧ (validate_coverage_thresholds_st.run d₁).2 = d₁
    ∧ (validate_coverage_thresholds_st.run d₁).1
        = validate_coverage_thresholds (some d₁) := by
  subst h
  refine ⟨rfl, ?_, ?_⟩ <;> cases d₁ <;> rfl

/-- C8 witness: the two properties evaluated on a one-entry dict. -/
theorem validate_deterministic_pure_witness :
    validate_coverage_thresholds_st.run [("line_coverage", ⟨90, 0⟩)]
        = validate_coverage_thresholds_st.run [("line_coverage", ⟨90, 0⟩)]
    ∧ (validate_coverage_thresholds_st.run [("line_coverage", ⟨90, 0⟩)]).2
        = [("line_coverage", ⟨90, 0⟩)]
    ∧ (validate_coverage_thresholds_st.run [("line_coverage", ⟨90, 0⟩)]).1
        = validate_coverage_thresholds (some [("line_coverage", ⟨90, 0⟩)]) :=
  validate_deterministic_pure [("line_coverage", ⟨90, 0⟩)] [("line_coverage", ⟨90, 0⟩)] rfl

/-- One update never clears a completed phase: the completed set before
    a line is included in the completed set after it. -/
theorem phaseLeB_update (line : String) (p : Phases) :
    phaseLeB p (update_test_phases line p) = true := by
  cases p with
  | mk s si t e c =>
    cases s <;> cases si <;> cases t <;> cases e <;> cases c <;>
      simp [phaseLeB, update_test_phases]

/-- The completed-set order is reflexive. -/
theorem phaseLeB_refl (p : Phases) : phaseLeB p p = true := by
  cases p with
  | mk s si t e c =>
    cases s <;> cases si <;> cases t <;> cases e <;> cases c <;> simp [phaseLeB]

/-- C4: phase completion is monotonic: a single update never resets a
    completed phase, and along any stream of lines the completed set
    after the first i lines is included in the completed set after the
    first i+1 lines. -/
theorem phase_completion_monotone :
    (∀ (line : String) (p : Phases), phaseLeB p (update_test_phases line p) = true)
    ∧ (∀ (p0 : Phases) (ls : List String) (i : Nat),
        phaseLeB (run_phase_lines p0 (ls.take i))
          (run_phase_lines p0 (ls.take (i + 1))) = true) := by
  refine ⟨phaseLeB_update, ?_⟩
  intro p0 ls i
  rw [List.take_succ]
  cases hl : ls[i]? with
  | none =>
    simp only [Option.toList_none, List.append_nil]
    exact phaseLeB_refl _
  | some l =>
    simp only [Option.toList_some, run_phase_lines, List.foldl_append, List.foldl_cons,
      List.foldl_nil]
    exact phaseLeB_update l _

/-- A phase whose triggers all miss the line is not marked by it. -/
theorem phaseHit_false (line : String) (pats : List String)
    (h : ∀ pat ∈ pats, containsStr pat line = false) :
    phaseHit pats line = false := by
  induction pats with
  | nil => rfl
  | cons q qs ih =>
    simp only [phaseHit, List.any_cons, h q (List.mem_cons_self q qs), Bool.false_or]
    exact ih fun pat hp => h pat (List.mem_cons_of_mem q hp)

/-- C7: the line SplashPanel loaded successfully marks the startup phase
    complete from the initial state, feeding it again to the resulting
    state changes nothing, and a line containing no trigger of any phase
    leaves every phase dict unchanged. -/
theorem update_test_phases_examples (line : String) (p : Phases)
    (h : all_patterns.all (fun pat => !containsStr pat line) = true) :
    update_test_phases "SplashPanel loaded successfully" initial_test_phases
        = ⟨true, false, false, false, false⟩
    ∧ update_test_phases "SplashPanel loaded successfully"
        ⟨true, false, false, false, false⟩ = ⟨true, false, false, false, false⟩
    ∧ update_test_phases line p = p := by
  refine ⟨by decide, by decide, ?_⟩
  have hall : ∀ pat ∈ all_patterns, containsStr pat line = false := by
    intro pat hp
    have hx := List.all_eq_true.mp h pat hp
    simpa [Bool.not_eq_true'] using hx
  have k1 : phaseHit startup_patterns line = false :=
    phaseHit_false line startup_patterns
      (fun pat hp => hall pat (by simp [all_patterns, List.mem_append, hp]))
  have k2 : phaseHit sensor_interaction_patterns line = false :=
    phaseHit_false line sensor_interaction_patterns
      (fun pat hp => hall pat (by simp [all_patterns, List.mem_append, hp]))
  have k3 : phaseHit theme_trigger_patterns line = false :=
    phaseHit_false line theme_trigger_patterns
      (fun pat hp => hall pat (by simp [all_patterns, List.mem_append, hp]))
  have k4 : phaseHit error_system_patterns line = false :=
    phaseHit_false line error_system_patterns
      (fun pat hp => hall pat (by simp [all_patterns, List.mem_append, hp]))
  have k5 : phaseHit configuration_patterns line = false :=
    phaseHit_false line configuration_patterns
      (fun pat hp => hall pat (by simp [all_patterns, List.mem_append, hp]))
  cases p with
  | mk s si t e c =>
    simp only [update_test_phases, k1, k2, k3, k4, k5]
    cases s <;> cases si <;> cases t <;> cases e <;> cases c <;> rfl

/-- C7 witness: the three facts at the concrete unrelated line hello
    from the all-false state. -/
theorem update_test_phases_examples_witness :
    all_patterns.all (fun pat => !containsStr pat "hello") = true
    ∧ (update_test_phases "SplashPanel loaded successfully" initial_test_phases
          = ⟨true, false, false, false, false⟩
       ∧ update_test_phases "SplashPanel loaded successfully"
           ⟨true, false, false, false, false⟩ = ⟨true, false, false, false, false⟩
       ∧ update_test_phases "hello" initial_test_phases = initial_test_phases) :=
  ⟨by decide, update_test_phases_examples "hello" initial_test_phases (by decide)⟩

/-- Whether one loop iteration of the parser raises does not depend on
    the dict accumulated so far. -/
theorem parse_line_step_none_any (line : List Char)
    (h : parse_line_step [] line = none) (d : MetricSet) :
    parse_line_step d line = none := by
  by_cases c1 : containsSub lines_label line = true <;>
    by_cases c2 : containsSub functions_label line = true <;>
      by_cases c3 : containsSub branches_label line = true <;>
        simp [parse_line_step, c1, c2, c3, Option.map_eq_none'] at h ⊢ <;>
          exact h

/-- A fold over Option dies as soon as one element fails, whatever the
    accumulator. -/
theorem foldlM_parse_none (ls : List (List Char)) (line : List Char)
    (hm : line ∈ ls) (hf : ∀ d, parse_line_step d line = none) (d : MetricSet) :
    ls.foldlM parse_line_step d = none := by
  induction ls generalizing d with
  | nil => cases hm
  | cons a t ih =>
    rw [List.foldlM_cons]
    rcases List.mem_cons.mp hm with rfl | hm'
    · rw [hf d]
      rfl
    · cases ha : parse_line_step d a with
      | none => rfl
      | some d2 =>
        simpa [ha] using ih hm' d2

/-- C3 as the code has it: a chunk that carries a recognized label but a
    malformed percentage token makes the whole parse return None — the
    try handler of lines 168-170 wraps the entire loop, so the exception
    aborts the parse and every metric from other chunks is discarded
    rather than returned. -/
theorem parse_aborts_on_malformed (stdout : String) (line : List Char)
    (h1 : line ∈ splitBackslashN stdout.data)
    (h2 : parse_line_step [] line = none) :
    parse_coverage_results stdout = none :=
  foldlM_parse_none (splitBackslashN stdout.data) line h1
    (parse_line_step_none_any line h2) []

/-- C3 witness: a summary whose first chunk parses as 92.3 and whose
    second chunk has the malformed token abc yields None overall. -/
theorem parse_aborts_on_malformed_witness :
    "functions..: abc%".data
        ∈ splitBackslashN "lines......: 92.3%\\nfunctions..: abc%".data
    ∧ parse_line_step [] "functions..: abc%".data = none
    ∧ parse_coverage_results "lines......: 92.3%\\nfunctions..: abc%" = none :=
  ⟨by decide, by decide,
    parse_aborts_on_malformed "lines......: 92.3%\\nfunctions..: abc%"
      "functions..: abc%".data (by decide) (by decide)⟩

/-- C3 counterexample: on that same input the claim predicts that the
    line metric extracted from the healthy chunk is still returned, but
    the parse returns None, so no metric survives. -/
theorem parse_malformed_aborts_cex :
    parse_coverage_results "lines......: 92.3%\\nfunctions..: abc%" = none
    ∧ parse_coverage_results "lines......: 92.3%\\nfunctions..: abc%"
        ≠ some [("line_coverage", ⟨923, 1⟩)] := by
  constructor
  · decide
  · decide

/-- C5 at the code: the split separator is the literal two-character
    sequence backslash-n, so two physical lines separated by a real
    newline form a single chunk; the first label branch wins and the
    value recorded is the second whitespace token of the whole chunk,
    10.0 — not 20.0 as last-occurrence-wins line scanning would give.
    The single-line example of the claim still parses to 92.3. -/
theorem parse_splits_on_literal_backslash_n :
    parse_coverage_results "lines......: 10.0%\nlines......: 20.0%"
        = some [("line_coverage", ⟨10, 0⟩)]
    ∧ parse_coverage_results "lines......: 10.0%\nlines......: 20.0%"
        ≠ some [("line_coverage", ⟨20, 0⟩)]
    ∧ parse_coverage_results "lines......: 92.3% (100 of 108)\n"
        = some [("line_coverage", ⟨923, 1⟩)]
    ∧ parse_coverage_results "" = some [] := by
  refine ⟨by decide, by decide, by decide, by decide⟩

/-- C2: whenever run_all_tests returns an exit code, the code is 0
    exactly when the unit, integration, performance and memory stage
    results, coverage generation and threshold validation all passed,
    and 1 otherwise; when coverage generation fails the validated datum
    is None (parsing skipped), None validates to False, and the exit
    code is 1. -/
theorem run_all_exit_code (env : Env) (sp sm : Bool) (code : Int)
    (h : run_all_tests env sp sm = Except.ok code) :
    ((code = 0) ↔ (run_unit_tests env = Except.ok true
      ∧ run_integration_tests env = Except.ok true
      ∧ performance_result env sp = Except.ok true
      ∧ memory_result env sm = Except.ok true
      ∧ generate_coverage_report env = true
      ∧ validate_coverage_thresholds
          (if generate_coverage_report env then parse_coverage_results_run env
           else none) = true))
    ∧ (code = 0 ∨ code = 1)
    ∧ validate_coverage_thresholds none = false
    ∧ (generate_coverage_report env = false → code = 1) := by
  simp only [run_all_tests] at h
  cases hu : run_unit_tests env with
  | error e => rw [hu] at h; simp at h
  | ok u =>
    rw [hu] at h
    dsimp only at h
    cases hi : run_integration_tests env with
    | error e => rw [hi] at h; simp at h
    | ok i =>
      rw [hi] at h
      dsimp only at h
      cases hp : performance_result env sp with
      | error e => rw [hp] at h; simp at h
      | ok p =>
        rw [hp] at h
        dsimp only at h
        cases hm : memory_result env sm with
        | error e => rw [hm] at h; simp at h
        | ok m =>
          rw [hm] at h
          dsimp only at h
          cases hr : generate_test_report env with
          | error e => rw [hr] at h; simp at h
          | ok u2 =>
            rw [hr] at h
            dsimp only at h
            cases hb : (u && i && p && m && generate_coverage_report env
                && validate_coverage_thresholds
                    (if generate_coverage_report env then parse_coverage_results_run env
                     else none)) with
            | true =>
              rw [hb] at h
              simp only [if_true, Except.ok.injEq] at h
              have hcode : code = 0 := by omega
              simp only [Bool.and_eq_true] at hb
              obtain ⟨⟨⟨⟨⟨hu1, hi1⟩, hp1⟩, hm1⟩, hcg⟩, hcp⟩ := hb
              subst hu1 hi1 hp1 hm1
              refine ⟨?_, Or.inl hcode, rfl, ?_⟩
              · constructor
                · intro _
                  exact ⟨rfl, rfl, rfl, rfl, hcg, hcp⟩
                · intro _
                  exact hcode
              · intro hcgf
                rw [hcgf] at hcg
                exact Bool.noConfusion hcg
            | false =>
              rw [hb] at h
              simp at h
              have hcode : code = 1 := by omega
              refine ⟨?_, Or.inr hcode, rfl, fun _ => hcode⟩
              constructor
              · intro h0
                exfalso
                omega
              · intro hconj
                obtain ⟨e1, e2, e3, e4, e5, e6⟩ := hconj
                injection e1 with hu1
                injection e2 with hi1
                injection e3 with hp1
                injection e4 with hm1
                exfalso
                rw [hu1, hi1, hp1, hm1, e6, e5] at hb
                simp at hb

/-- C2 witness: the all-passing environment returns exit code 0 and the
    characterisation instantiated there. -/
theorem run_all_exit_code_witness :
    run_all_tests envAllPass false false = Except.ok 0
    ∧ ((((0 : Int) = 0) ↔ (run_unit_tests envAllPass = Except.ok true
        ∧ run_integration_tests envAllPass = Except.ok true
        ∧ performance_result envAllPass false = Except.ok true
        ∧ memory_result envAllPass false = Except.ok true
        ∧ generate_coverage_report envAllPass = true
        ∧ validate_coverage_thresholds
            (if generate_coverage_report envAllPass then parse_coverage_results_run envAllPass
             else none) = true))
      ∧ (((0 : Int) = 0) ∨ ((0 : Int) = 1))
      ∧ validate_coverage_thresholds none = false
      ∧ (generate_coverage_report envAllPass = false → (0 : Int) = 1)) :=
  ⟨rfl, run_all_exit_code envAllPass false false 0 rfl⟩

/-- C6 at the code: when the stage tool cannot be launched, the raised
    FileNotFoundError is not caught by the stage runner (its handler
    only matches CalledProcessError), so run_all_tests propagates the
    exception and produces no exit code at all: the later stages never
    run and no report is written, contrary to the claimed
    failed-step-result propagation. -/
theorem run_all_aborts_on_missing_tool :
    run_unit_tests envMissingTool = Except.error PyExc.fileNotFoundError
    ∧ run_all_tests envMissingTool false false
        = Except.error PyExc.fileNotFoundError :=
  ⟨rfl, rfl⟩

/-- C9: with both skip flags set, the performance and memory results are
    vacuously passing and the run never consults the outcomes of the two
    skipped stage invocations: the exit value is unchanged under any
    replacement of those outcomes, so they cannot affect the verdict. -/
theorem skipped_stages_vacuous (env : Env) (p m : Except PyExc Int) :
    performance_result env true = Except.ok true
    ∧ memory_result env true = Except.ok true
    ∧ run_all_tests { env with performance_run := p, memory_run := m } true true
        = run_all_tests env true true :=
  ⟨rfl, rfl, rfl⟩

end Clarity
